import Mathlib

/-
Verification of the cumulative-metrics aggregation engine of FuelMonitorApi.

Shallow embedding conventions:
* Go float64 values are modelled as rationals (ℚ); the claims under study are
  about the algebraic structure of the computations, not float precision.
* Timestamps are rationals measured in hours, so that Go's
  (t2.Sub(t1)).Hours() becomes plain subtraction.
* Calendar dates handled as SQL strings (YYYY-MM-DD, compared lexically)
  are modelled as integer day numbers.
* Database queries become pure functions over explicit row lists; fallible
  queries return Except/Option values.
* Go's int(x) float-to-int conversion truncates toward zero; truncQ models it.
-/

namespace FuelMonitor

/-- A sensor sample of a binary state signal as returned by the sensor_readings
query: the raw text value and the sample timestamp (hours). -/
structure StateSample where
  value : String
  time : ℚ
  deriving DecidableEq

/-- The ON test used by calculateStateRuntime: the text value is "1" or "1.0";
anything else (including malformed values) is OFF. -/
def isOn (v : String) : Bool :=
  v == "1" || v == "1.0"

/-- Loop state of calculateStateRuntime: accumulated runtime plus the
lastTime/lastState/hasData variables of the Go loop. -/
structure RuntimeAcc where
  runtime : ℚ
  lastTime : ℚ
  lastState : Bool
  hasData : Bool
  deriving DecidableEq

/-- One iteration of calculateStateRuntime's row loop: if a previous sample
exists and its state was ON, add the elapsed time; then shift the
lastTime/lastState/hasData variables. -/
def stateRuntimeStep (acc : RuntimeAcc) (s : StateSample) : RuntimeAcc :=
  { runtime :=
      if acc.hasData && acc.lastState then acc.runtime + (s.time - acc.lastTime)
      else acc.runtime
    lastTime := s.time
    lastState := isOn s.value
    hasData := true }

/-- calculateStateRuntime (database/cumulative readings module): fold the
time-ordered in-window samples through the row loop, then, if the last
observed state was ON and its timestamp precedes the window end, extend the
ON interval to the window end. -/
def calculateStateRuntime (samples : List StateSample) (endOfDay : ℚ) : ℚ :=
  let acc := samples.foldl stateRuntimeStep ⟨0, 0, false, false⟩
  if acc.hasData ∧ acc.lastState ∧ acc.lastTime < endOfDay then
    acc.runtime + (endOfDay - acc.lastTime)
  else
    acc.runtime

/-- Reference walk taken from the specification text: maintain the previous
timestamp and previous state; at each observed sample, if the previous state
was ON, add (current timestamp − previous timestamp); after exhausting the
samples, if the last observed state was ON and its timestamp precedes the
window end, add (window end − last timestamp). -/
def specRuntimeWalk (endOfWindow : ℚ) : ℚ → Bool → List StateSample → ℚ
  | prevTime, prevState, [] =>
      if prevState ∧ prevTime < endOfWindow then endOfWindow - prevTime else 0
  | prevTime, prevState, s :: rest =>
      (if prevState then s.time - prevTime else 0) +
        specRuntimeWalk endOfWindow s.time (isOn s.value) rest

/-- Reference total per the specification: zero for an empty sample list,
otherwise the walk seeded with the first sample. -/
def specStateRuntime (samples : List StateSample) (endOfWindow : ℚ) : ℚ :=
  match samples with
  | [] => 0
  | s :: rest => specRuntimeWalk endOfWindow s.time (isOn s.value) rest

lemma foldl_stateRuntimeStep_spec (endOfWindow : ℚ) (rest : List StateSample) :
    ∀ (r t : ℚ) (b : Bool),
      (let acc := rest.foldl stateRuntimeStep ⟨r, t, b, true⟩
       if acc.hasData ∧ acc.lastState ∧ acc.lastTime < endOfWindow then
         acc.runtime + (endOfWindow - acc.lastTime)
       else acc.runtime)
      = r + specRuntimeWalk endOfWindow t b rest := by
  induction rest with
  | nil =>
      intro r t b
      simp only [List.foldl_nil, specRuntimeWalk]
      cases b with
      | false => simp
      | true =>
          by_cases ht : t < endOfWindow
          · simp [ht]
          · simp [ht]
  | cons s rest ih =>
      intro r t b
      simp only [List.foldl_cons, specRuntimeWalk]
      have hstep : stateRuntimeStep ⟨r, t, b, true⟩ s =
          ⟨if b then r + (s.time - t) else r, s.time, isOn s.value, true⟩ := by
        simp [stateRuntimeStep]
      rw [hstep, ih]
      cases b with
      | false => simp
      | true => simp; ring

/-- C1: the State-Interval Integrator agrees with the spec's walk on every
sample list and window end: transitions contribute (current − previous) when
the previous state was ON, a trailing ON state is extended to the window end,
and an empty sample list yields 0, with ON meaning text value "1" or "1.0". -/
theorem calculateStateRuntime_eq_spec (samples : List StateSample) (endOfWindow : ℚ) :
    calculateStateRuntime samples endOfWindow = specStateRuntime samples endOfWindow := by
  cases samples with
  | nil => simp [calculateStateRuntime, specStateRuntime]
  | cons s rest =>
      unfold calculateStateRuntime specStateRuntime
      simp only [List.foldl_cons]
      have hfirst : stateRuntimeStep ⟨0, 0, false, false⟩ s =
          ⟨0, s.time, isOn s.value, true⟩ := by
        simp [stateRuntimeStep]
      rw [hfirst]
      have h := foldl_stateRuntimeStep_spec endOfWindow rest 0 s.time (isOn s.value)
      simpa using h

/-- Fuel metrics computed by CalculateFuelChanges for one device and day. -/
structure FuelMetrics where
  TotalFuelConsumed : ℚ
  TotalFuelTopped : ℚ
  FuelConsumedPercent : ℚ
  FuelToppedPercent : ℚ
  deriving DecidableEq

/-- Level (percentage) loop of CalculateFuelChanges: walk consecutive readings;
when the generator had no activity, skip deltas of magnitude below 2.0; a
positive delta accumulates into topped, a negative one into consumed. -/
def levelChangesLoop (hasGeneratorRuntime : Bool) : ℚ → ℚ → List ℚ → ℚ × ℚ
  | consumed, topped, [] => (consumed, topped)
  | consumed, topped, [_] => (consumed, topped)
  | consumed, topped, prev :: curr :: rest =>
      if ¬hasGeneratorRuntime ∧ |curr - prev| < 2 then
        levelChangesLoop hasGeneratorRuntime consumed topped (curr :: rest)
      else if 0 < curr - prev then
        levelChangesLoop hasGeneratorRuntime consumed (topped + (curr - prev)) (curr :: rest)
      else if curr - prev < 0 then
        levelChangesLoop hasGeneratorRuntime (consumed + -(curr - prev)) topped (curr :: rest)
      else
        levelChangesLoop hasGeneratorRuntime consumed topped (curr :: rest)

/-- Volume (liters) loop of CalculateFuelChanges: identical classification, but
the noise gate converts the delta to a percentage of the previous reading and
only applies when the previous reading is positive. -/
def volumeChangesLoop (hasGeneratorRuntime : Bool) : ℚ → ℚ → List ℚ → ℚ × ℚ
  | consumed, topped, [] => (consumed, topped)
  | consumed, topped, [_] => (consumed, topped)
  | consumed, topped, prev :: curr :: rest =>
      if 0 < prev ∧ ¬hasGeneratorRuntime ∧ |curr - prev| / prev * 100 < 2 then
        volumeChangesLoop hasGeneratorRuntime consumed topped (curr :: rest)
      else if 0 < curr - prev then
        volumeChangesLoop hasGeneratorRuntime consumed (topped + (curr - prev)) (curr :: rest)
      else if curr - prev < 0 then
        volumeChangesLoop hasGeneratorRuntime (consumed + -(curr - prev)) topped (curr :: rest)
      else
        volumeChangesLoop hasGeneratorRuntime consumed topped (curr :: rest)

/-- CalculateFuelChanges: run the level loop over the percentage readings and
the volume loop over the liter readings (both time-ordered), and package the
four totals. hasGeneratorRuntime is the result of the generator-activity
existence check for the day. -/
def CalculateFuelChanges (hasGeneratorRuntime : Bool)
    (levelReadings volumeReadings : List ℚ) : FuelMetrics :=
  let levelTotals := levelChangesLoop hasGeneratorRuntime 0 0 levelReadings
  let volumeTotals := volumeChangesLoop hasGeneratorRuntime 0 0 volumeReadings
  { TotalFuelConsumed := volumeTotals.1
    TotalFuelTopped := volumeTotals.2
    FuelConsumedPercent := levelTotals.1
    FuelToppedPercent := levelTotals.2 }

/-- Consecutive deltas (current − previous) of a reading sequence. -/
def adjacentDeltas : List ℚ → List ℚ
  | [] => []
  | [_] => []
  | a :: b :: rest => (b - a) :: adjacentDeltas (b :: rest)

/-- Consecutive (previous, current) pairs of a reading sequence. -/
def adjacentPairs : List ℚ → List (ℚ × ℚ)
  | [] => []
  | [_] => []
  | a :: b :: rest => (a, b) :: adjacentPairs (b :: rest)

/-- Reference consumed percentage per the spec's noise-gate rule with the
generator inactive: a delta is kept exactly when its magnitude is at least the
2.0 threshold; kept negative deltas accumulate (as positive amounts). -/
def specLevelConsumed (deltas : List ℚ) : ℚ :=
  ((deltas.filter fun d => decide (2 ≤ |d| ∧ d < 0)).map fun d => -d).sum

/-- Reference topped percentage per the spec's noise-gate rule with the
generator inactive: kept positive deltas accumulate. -/
def specLevelTopped (deltas : List ℚ) : ℚ :=
  (deltas.filter fun d => decide (2 ≤ |d| ∧ 0 < d)).sum

/-- The spec's volume-gate discard condition (generator inactive): the previous
reading is positive and the delta is below 2.0 percent of it. -/
def volumeGateDiscards (p : ℚ × ℚ) : Prop :=
  0 < p.1 ∧ |p.2 - p.1| / p.1 * 100 < 2

instance (p : ℚ × ℚ) : Decidable (volumeGateDiscards p) := by
  unfold volumeGateDiscards
  infer_instance

/-- Reference consumed volume per the spec: a (previous, current) pair is kept
exactly when the gate does not discard it; kept negative deltas accumulate. -/
def specVolumeConsumed (pairs : List (ℚ × ℚ)) : ℚ :=
  ((pairs.filter fun p => decide (¬volumeGateDiscards p ∧ p.2 - p.1 < 0)).map
    fun p => -(p.2 - p.1)).sum

/-- Reference topped volume per the spec: kept positive deltas accumulate. -/
def specVolumeTopped (pairs : List (ℚ × ℚ)) : ℚ :=
  ((pairs.filter fun p => decide (¬volumeGateDiscards p ∧ 0 < p.2 - p.1)).map
    fun p => p.2 - p.1).sum

lemma specLevelConsumed_cons (d : ℚ) (ds : List ℚ) :
    specLevelConsumed (d :: ds) =
      (if 2 ≤ |d| ∧ d < 0 then -d else 0) + specLevelConsumed ds := by
  by_cases h : 2 ≤ |d| ∧ d < 0 <;>
    simp [specLevelConsumed, List.filter_cons, h]

lemma specLevelTopped_cons (d : ℚ) (ds : List ℚ) :
    specLevelTopped (d :: ds) =
      (if 2 ≤ |d| ∧ 0 < d then d else 0) + specLevelTopped ds := by
  by_cases h : 2 ≤ |d| ∧ 0 < d <;>
    simp [specLevelTopped, List.filter_cons, h]

lemma specVolumeConsumed_cons (p : ℚ × ℚ) (ps : List (ℚ × ℚ)) :
    specVolumeConsumed (p :: ps) =
      (if ¬volumeGateDiscards p ∧ p.2 - p.1 < 0 then -(p.2 - p.1) else 0) +
        specVolumeConsumed ps := by
  unfold specVolumeConsumed
  rw [List.filter_cons]
  by_cases h : ¬volumeGateDiscards p ∧ p.2 - p.1 < 0
  · rw [if_pos (by simpa using h), if_pos h, List.map_cons, List.sum_cons]
  · rw [if_neg (by simpa using h), if_neg h, zero_add]

lemma specVolumeTopped_cons (p : ℚ × ℚ) (ps : List (ℚ × ℚ)) :
    specVolumeTopped (p :: ps) =
      (if ¬volumeGateDiscards p ∧ 0 < p.2 - p.1 then p.2 - p.1 else 0) +
        specVolumeTopped ps := by
  unfold specVolumeTopped
  rw [List.filter_cons]
  by_cases h : ¬volumeGateDiscards p ∧ 0 < p.2 - p.1
  · rw [if_pos (by simpa using h), if_pos h, List.map_cons, List.sum_cons]
  · rw [if_neg (by simpa using h), if_neg h, zero_add]

lemma levelChangesLoop_false_spec (l : List ℚ) :
    ∀ consumed topped : ℚ,
      levelChangesLoop false consumed topped l =
        (consumed + specLevelConsumed (adjacentDeltas l),
         topped + specLevelTopped (adjacentDeltas l)) := by
  induction l with
  | nil =>
      intro c t
      simp [levelChangesLoop, adjacentDeltas, specLevelConsumed, specLevelTopped]
  | cons a l ih =>
      intro c t
      cases l with
      | nil =>
          simp [levelChangesLoop, adjacentDeltas, specLevelConsumed, specLevelTopped]
      | cons b rest =>
          have hnf : ¬(false : Bool) = true := by simp
          have hdel : adjacentDeltas (a :: b :: rest) =
              (b - a) :: adjacentDeltas (b :: rest) := rfl
          rw [hdel, specLevelConsumed_cons, specLevelTopped_cons]
          simp only [levelChangesLoop]
          by_cases hgate : |b - a| < 2
          · have h1 : ¬(2 ≤ |b - a| ∧ b - a < 0) := fun h => absurd h.1 (not_le.mpr hgate)
            have h2 : ¬(2 ≤ |b - a| ∧ 0 < b - a) := fun h => absurd h.1 (not_le.mpr hgate)
            rw [if_pos ⟨hnf, hgate⟩, ih c t, if_neg h1, if_neg h2]
            rw [Prod.mk.injEq]
            exact ⟨by ring, by ring⟩
          · have hkeep : 2 ≤ |b - a| := not_lt.mp hgate
            rw [if_neg (fun h => hgate h.2)]
            rcases lt_trichotomy (0 : ℚ) (b - a) with hpos | hzero | hneg
            · have hnneg : ¬(b - a < 0) := not_lt.mpr (le_of_lt hpos)
              rw [if_pos hpos, ih, if_neg (fun h => hnneg h.2), if_pos ⟨hkeep, hpos⟩]
              rw [Prod.mk.injEq]
              exact ⟨by ring, by ring⟩
            · exfalso
              rw [← hzero] at hkeep
              simp at hkeep
              linarith
            · have hnpos : ¬(0 < b - a) := not_lt.mpr (le_of_lt hneg)
              rw [if_neg hnpos, if_pos hneg, ih, if_pos ⟨hkeep, hneg⟩,
                if_neg (fun h => hnpos h.2)]
              rw [Prod.mk.injEq]
              exact ⟨by ring, by ring⟩

lemma volumeChangesLoop_false_spec (l : List ℚ) :
    ∀ consumed topped : ℚ,
      volumeChangesLoop false consumed topped l =
        (consumed + specVolumeConsumed (adjacentPairs l),
         topped + specVolumeTopped (adjacentPairs l)) := by
  induction l with
  | nil =>
      intro c t
      simp [volumeChangesLoop, adjacentPairs, specVolumeConsumed, specVolumeTopped]
  | cons a l ih =>
      intro c t
      cases l with
      | nil =>
          simp [volumeChangesLoop, adjacentPairs, specVolumeConsumed, specVolumeTopped]
      | cons b rest =>
          have hnf : ¬(false : Bool) = true := by simp
          have hpair : adjacentPairs (a :: b :: rest) =
              (a, b) :: adjacentPairs (b :: rest) := rfl
          rw [hpair, specVolumeConsumed_cons, specVolumeTopped_cons]
          simp only [volumeChangesLoop]
          by_cases hgate : volumeGateDiscards (a, b)
          · obtain ⟨hprev, hpct⟩ := hgate
            have hg : volumeGateDiscards (a, b) := ⟨hprev, hpct⟩
            have h1 : ¬(¬volumeGateDiscards (a, b) ∧ (a, b).2 - (a, b).1 < 0) :=
              fun h => h.1 hg
            have h2 : ¬(¬volumeGateDiscards (a, b) ∧ 0 < (a, b).2 - (a, b).1) :=
              fun h => h.1 hg
            rw [if_pos ⟨hprev, hnf, hpct⟩, ih c t, if_neg h1, if_neg h2]
            rw [Prod.mk.injEq]
            exact ⟨by ring, by ring⟩
          · have hcond : ¬(0 < a ∧ ¬(false : Bool) = true ∧ |b - a| / a * 100 < 2) := by
              intro h
              exact hgate ⟨h.1, h.2.2⟩
            rw [if_neg hcond]
            rcases lt_trichotomy (0 : ℚ) (b - a) with hpos | hzero | hneg
            · have hnneg : ¬(b - a < 0) := not_lt.mpr (le_of_lt hpos)
              rw [if_pos hpos, ih, if_neg (fun h => hnneg h.2), if_pos ⟨hgate, hpos⟩]
              rw [Prod.mk.injEq]
              exact ⟨by ring, by ring⟩
            · have hnpos : ¬(0 < b - a) := by rw [← hzero]; exact lt_irrefl 0
              have hnneg : ¬(b - a < 0) := by rw [← hzero]; exact lt_irrefl 0
              rw [if_neg hnpos, if_neg hnneg, ih, if_neg (fun h => hnneg h.2),
                if_neg (fun h => hnpos h.2)]
              rw [Prod.mk.injEq]
              exact ⟨by ring, by ring⟩
            · have hnpos : ¬(0 < b - a) := not_lt.mpr (le_of_lt hneg)
              rw [if_neg hnpos, if_pos hneg, ih, if_pos ⟨hgate, hneg⟩,
                if_neg (fun h => hnpos h.2)]
              rw [Prod.mk.injEq]
              exact ⟨by ring, by ring⟩

/-- C3: with the generator inactive, a level delta is discarded exactly when
its magnitude is strictly below 2.0 (a delta of magnitude exactly 2.0 is
kept): the computed percentages equal the reference sums over the kept deltas;
and the level sequence [50, 48, 53] yields consumed percent 2 and topped
percent 5. -/
theorem fuel_level_noise_gate (levelReadings volumeReadings : List ℚ) :
    ((CalculateFuelChanges false levelReadings volumeReadings).FuelConsumedPercent =
        specLevelConsumed (adjacentDeltas levelReadings) ∧
      (CalculateFuelChanges false levelReadings volumeReadings).FuelToppedPercent =
        specLevelTopped (adjacentDeltas levelReadings)) ∧
    (CalculateFuelChanges false [50, 48, 53] []).FuelConsumedPercent = 2 ∧
    (CalculateFuelChanges false [50, 48, 53] []).FuelToppedPercent = 5 := by
  have hdel : adjacentDeltas [50, 48, 53] = [-2, 5] := by
    norm_num [adjacentDeltas]
  have habs2 : |(-2 : ℚ)| = 2 := by rw [abs_neg]; exact abs_two
  have habs5 : |(5 : ℚ)| = 5 := abs_of_nonneg (by norm_num)
  refine ⟨⟨?_, ?_⟩, ?_, ?_⟩
  · simp [CalculateFuelChanges, levelChangesLoop_false_spec]
  · simp [CalculateFuelChanges, levelChangesLoop_false_spec]
  · rw [show (CalculateFuelChanges false [50, 48, 53] []).FuelConsumedPercent =
        (levelChangesLoop false 0 0 [50, 48, 53]).1 from rfl,
      levelChangesLoop_false_spec, hdel]
    norm_num [specLevelConsumed, List.filter_cons, habs2, habs5]
  · rw [show (CalculateFuelChanges false [50, 48, 53] []).FuelToppedPercent =
        (levelChangesLoop false 0 0 [50, 48, 53]).2 from rfl,
      levelChangesLoop_false_spec, hdel]
    norm_num [specLevelTopped, List.filter_cons, habs2, habs5]

/-- C4: with the generator inactive, a volume delta is gated only when the
previous reading is positive: it is discarded exactly when previous > 0 and
the delta's magnitude is below 2.0 percent of the previous reading; when the
previous reading is ≤ 0 the gate is skipped and the delta is classified. The
computed volumes equal the reference sums over the kept pairs. -/
theorem fuel_volume_noise_gate (levelReadings volumeReadings : List ℚ) :
    (CalculateFuelChanges false levelReadings volumeReadings).TotalFuelConsumed =
        specVolumeConsumed (adjacentPairs volumeReadings) ∧
      (CalculateFuelChanges false levelReadings volumeReadings).TotalFuelTopped =
        specVolumeTopped (adjacentPairs volumeReadings) := by
  constructor
  · simp [CalculateFuelChanges, volumeChangesLoop_false_spec]
  · simp [CalculateFuelChanges, volumeChangesLoop_false_spec]

/-- Power metrics computed by CalculatePowerRuntimes for one device and day. -/
structure PowerMetrics where
  TotalGeneratorRuntime : ℚ
  TotalZesaRuntime : ℚ
  TotalOfflineTime : ℚ
  deriving DecidableEq

/-- CalculatePowerRuntimes: compute the generator and zesa state runtimes with
the State-Interval Integrator, then derive the offline hours as 24 minus the
total active hours, floored at zero. -/
def CalculatePowerRuntimes (generatorSamples zesaSamples : List StateSample)
    (endOfDay : ℚ) : PowerMetrics :=
  let generatorHours := calculateStateRuntime generatorSamples endOfDay
  let zesaHours := calculateStateRuntime zesaSamples endOfDay
  let totalActiveHours := generatorHours + zesaHours
  let offlineHours := if totalActiveHours < 24 then 24 - totalActiveHours else 0
  { TotalGeneratorRuntime := generatorHours
    TotalZesaRuntime := zesaHours
    TotalOfflineTime := offlineHours }

/-- C5: the offline hours returned by CalculatePowerRuntimes always equal
max(0, 24 − generator hours − zesa hours); in particular runtimes of 14 and 15
hours (whose sum exceeds 24) yield 0 offline hours, never a negative value. -/
theorem offline_hours_clamped (generatorSamples zesaSamples : List StateSample)
    (endOfDay : ℚ) :
    ((CalculatePowerRuntimes generatorSamples zesaSamples endOfDay).TotalOfflineTime =
      max 0 (24 - ((CalculatePowerRuntimes generatorSamples zesaSamples endOfDay).TotalGeneratorRuntime +
        (CalculatePowerRuntimes generatorSamples zesaSamples endOfDay).TotalZesaRuntime))) ∧
    (CalculatePowerRuntimes [⟨"1", 0⟩, ⟨"0", 14⟩] [⟨"1", 0⟩, ⟨"0", 15⟩] 24).TotalGeneratorRuntime = 14 ∧
    (CalculatePowerRuntimes [⟨"1", 0⟩, ⟨"0", 14⟩] [⟨"1", 0⟩, ⟨"0", 15⟩] 24).TotalZesaRuntime = 15 ∧
    (CalculatePowerRuntimes [⟨"1", 0⟩, ⟨"0", 14⟩] [⟨"1", 0⟩, ⟨"0", 15⟩] 24).TotalOfflineTime = 0 := by
  refine ⟨?_, ?_, ?_, ?_⟩
  · unfold CalculatePowerRuntimes
    rcases lt_or_le (calculateStateRuntime generatorSamples endOfDay +
        calculateStateRuntime zesaSamples endOfDay) 24 with h | h
    · simp only [h, if_true]
      rw [max_eq_right (by linarith)]
    · simp only [not_lt.mpr h, if_false]
      rw [max_eq_left (by linarith)]
  all_goals
    have h1 : isOn "1" = true := rfl
    have h0 : isOn "0" = false := rfl
    norm_num [CalculatePowerRuntimes, calculateStateRuntime, stateRuntimeStep, h1, h0]

/-- Go's int(x) conversion of a float: truncation toward zero. -/
def truncQ (q : ℚ) : ℤ :=
  if 0 ≤ q then ⌊q⌋ else ⌈q⌉

/-- roundToDecimal: multiply by 10^decimals, add 0.5, convert with int()
(truncation toward zero), and divide back. -/
def roundToDecimal (val : ℚ) (decimals : ℕ) : ℚ :=
  ((truncQ (val * 10 ^ decimals + 1 / 2) : ℤ) : ℚ) / 10 ^ decimals

/-- A per-site result of the single-day aggregation. CalculatedAt (a wall-clock
timestamp) is outside the embedding. -/
structure CumulativeSiteResult where
  SiteID : ℤ
  SiteName : String
  DeviceID : String
  FuelConsumed : ℚ
  FuelTopped : ℚ
  FuelConsumedPercent : ℚ
  FuelToppedPercent : ℚ
  GeneratorHours : ℚ
  ZesaHours : ℚ
  OfflineHours : ℚ
  Status : String
  Error : String
  deriving DecidableEq

/-- The single-day aggregation summary. -/
structure CumulativeSummary where
  TotalSites : ℤ
  ProcessedSites : ℤ
  ErrorSites : ℤ
  TotalFuelConsumed : ℚ
  TotalFuelTopped : ℚ
  TotalGeneratorHours : ℚ
  TotalZesaHours : ℚ
  TotalOfflineHours : ℚ
  deriving DecidableEq

/-- Loop state of calculateSummary's accumulation pass. -/
structure SummaryAcc where
  processedSites : ℤ
  errorSites : ℤ
  totalFuelConsumed : ℚ
  totalFuelTopped : ℚ
  totalGeneratorHours : ℚ
  totalZesaHours : ℚ
  totalOfflineHours : ℚ
  deriving DecidableEq

/-- One iteration of calculateSummary's loop: an ERROR result only bumps the
error count; any other result bumps the processed count and feeds the sums. -/
def summaryStep (acc : SummaryAcc) (result : CumulativeSiteResult) : SummaryAcc :=
  if result.Status == "ERROR" then
    { acc with errorSites := acc.errorSites + 1 }
  else
    { acc with
      processedSites := acc.processedSites + 1
      totalFuelConsumed := acc.totalFuelConsumed + result.FuelConsumed
      totalFuelTopped := acc.totalFuelTopped + result.FuelTopped
      totalGeneratorHours := acc.totalGeneratorHours + result.GeneratorHours
      totalZesaHours := acc.totalZesaHours + result.ZesaHours
      totalOfflineHours := acc.totalOfflineHours + result.OfflineHours }

/-- calculateSummary: accumulate counts and raw sums over the result list, then
round the five totals (1 decimal for volumes, 2 for hours). -/
def calculateSummary (results : List CumulativeSiteResult) (totalSites : ℤ) :
    CumulativeSummary :=
  let acc := results.foldl summaryStep ⟨0, 0, 0, 0, 0, 0, 0⟩
  { TotalSites := totalSites
    ProcessedSites := acc.processedSites
    ErrorSites := acc.errorSites
    TotalFuelConsumed := roundToDecimal acc.totalFuelConsumed 1
    TotalFuelTopped := roundToDecimal acc.totalFuelTopped 1
    TotalGeneratorHours := roundToDecimal acc.totalGeneratorHours 2
    TotalZesaHours := roundToDecimal acc.totalZesaHours 2
    TotalOfflineHours := roundToDecimal acc.totalOfflineHours 2 }

/-- Results that did not end in an ERROR status. -/
def nonErrorResults (results : List CumulativeSiteResult) : List CumulativeSiteResult :=
  results.filter fun r => !(r.Status == "ERROR")

/-- Results that ended in an ERROR status. -/
def errorResults (results : List CumulativeSiteResult) : List CumulativeSiteResult :=
  results.filter fun r => r.Status == "ERROR"

lemma foldl_summaryStep_spec (results : List CumulativeSiteResult) :
    ∀ acc : SummaryAcc,
      results.foldl summaryStep acc =
        ⟨acc.processedSites + ((nonErrorResults results).length : ℤ),
         acc.errorSites + ((errorResults results).length : ℤ),
         acc.totalFuelConsumed + ((nonErrorResults results).map (·.FuelConsumed)).sum,
         acc.totalFuelTopped + ((nonErrorResults results).map (·.FuelTopped)).sum,
         acc.totalGeneratorHours + ((nonErrorResults results).map (·.GeneratorHours)).sum,
         acc.totalZesaHours + ((nonErrorResults results).map (·.ZesaHours)).sum,
         acc.totalOfflineHours + ((nonErrorResults results).map (·.OfflineHours)).sum⟩ := by
  induction results with
  | nil =>
      intro acc
      simp [nonErrorResults, errorResults]
  | cons r rest ih =>
      intro acc
      rw [List.foldl_cons, ih]
      by_cases h : r.Status = "ERROR"
      · have hb : (r.Status == "ERROR") = true := by simp [h]
        simp only [summaryStep, hb, if_true, nonErrorResults, errorResults,
          List.filter_cons, Bool.not_true, Bool.false_eq_true, if_false,
          List.length_cons, if_true]
        rw [SummaryAcc.mk.injEq]
        refine ⟨rfl, ?_, rfl, rfl, rfl, rfl, rfl⟩
        push_cast
        ring
      · have hb : (r.Status == "ERROR") = false := by simp [h]
        simp only [summaryStep, hb, Bool.false_eq_true, if_false, nonErrorResults,
          errorResults, List.filter_cons, Bool.not_false, if_true,
          List.length_cons, List.map_cons, List.sum_cons]
        rw [SummaryAcc.mk.injEq]
        refine ⟨?_, rfl, by ring, by ring, by ring, by ring, by ring⟩
        push_cast
        ring

lemma calculateSummary_spec (results : List CumulativeSiteResult) (totalSites : ℤ) :
    calculateSummary results totalSites =
      ⟨totalSites,
       ((nonErrorResults results).length : ℤ),
       ((errorResults results).length : ℤ),
       roundToDecimal ((nonErrorResults results).map (·.FuelConsumed)).sum 1,
       roundToDecimal ((nonErrorResults results).map (·.FuelTopped)).sum 1,
       roundToDecimal ((nonErrorResults results).map (·.GeneratorHours)).sum 2,
       roundToDecimal ((nonErrorResults results).map (·.ZesaHours)).sum 2,
       roundToDecimal ((nonErrorResults results).map (·.OfflineHours)).sum 2⟩ := by
  unfold calculateSummary
  rw [foldl_summaryStep_spec]
  simp

lemma roundToDecimal_nonneg_eq_floor (x : ℚ) (d : ℕ) (hx : 0 ≤ x) :
    roundToDecimal x d = ((⌊x * 10 ^ d + 1 / 2⌋ : ℤ) : ℚ) / 10 ^ d := by
  unfold roundToDecimal truncQ
  rw [if_pos (by positivity)]

/-- C6: the single-day Aggregation Summary Builder counts ERROR results in
errorSites, counts all other results in processedSites, sums the five numeric
metric fields over non-ERROR results only (rounding each total as its final
step), and carries the eligible-site count through; in particular for one OK
result with fuelConsumed 10 and one ERROR result with totalSites 2 it returns
processedSites 1, errorSites 1, totalFuelConsumed 10. -/
theorem calculateSummary_partition (results : List CumulativeSiteResult) (totalSites : ℤ) :
    ((calculateSummary results totalSites).TotalSites = totalSites ∧
      (calculateSummary results totalSites).ProcessedSites =
        ((nonErrorResults results).length : ℤ) ∧
      (calculateSummary results totalSites).ErrorSites =
        ((errorResults results).length : ℤ) ∧
      (calculateSummary results totalSites).TotalFuelConsumed =
        roundToDecimal ((nonErrorResults results).map (·.FuelConsumed)).sum 1 ∧
      (calculateSummary results totalSites).TotalFuelTopped =
        roundToDecimal ((nonErrorResults results).map (·.FuelTopped)).sum 1 ∧
      (calculateSummary results totalSites).TotalGeneratorHours =
        roundToDecimal ((nonErrorResults results).map (·.GeneratorHours)).sum 2 ∧
      (calculateSummary results totalSites).TotalZesaHours =
        roundToDecimal ((nonErrorResults results).map (·.ZesaHours)).sum 2 ∧
      (calculateSummary results totalSites).TotalOfflineHours =
        roundToDecimal ((nonErrorResults results).map (·.OfflineHours)).sum 2) ∧
    calculateSummary
        [⟨1, "A", "d1", 10, 0, 0, 0, 0, 0, 0, "OK", ""⟩,
         ⟨2, "B", "d2", 0, 0, 0, 0, 0, 0, 0, "ERROR", "query failed"⟩] 2 =
      ⟨2, 1, 1, 10, 0, 0, 0, 0⟩ := by
  constructor
  · rw [calculateSummary_spec]
    exact ⟨rfl, rfl, rfl, rfl, rfl, rfl, rfl, rfl⟩
  · rw [calculateSummary_spec]
    have hne : nonErrorResults
        [⟨1, "A", "d1", 10, 0, 0, 0, 0, 0, 0, "OK", ""⟩,
         ⟨2, "B", "d2", 0, 0, 0, 0, 0, 0, 0, "ERROR", "query failed"⟩] =
        [⟨1, "A", "d1", 10, 0, 0, 0, 0, 0, 0, "OK", ""⟩] := by
      simp [nonErrorResults, List.filter]
    have herr : errorResults
        [⟨1, "A", "d1", 10, 0, 0, 0, 0, 0, 0, "OK", ""⟩,
         ⟨2, "B", "d2", 0, 0, 0, 0, 0, 0, 0, "ERROR", "query failed"⟩] =
        [⟨2, "B", "d2", 0, 0, 0, 0, 0, 0, 0, "ERROR", "query failed"⟩] := by
      simp [errorResults, List.filter]
    rw [hne, herr]
    have h10 : roundToDecimal 10 1 = 10 := by
      rw [roundToDecimal_nonneg_eq_floor 10 1 (by norm_num)]
      rw [show (10 : ℚ) * 10 ^ 1 + 1 / 2 = 201 / 2 by norm_num]
      rw [show ⌊(201 / 2 : ℚ)⌋ = 100 by rw [Int.floor_eq_iff] <;> norm_num]
      norm_num
    have h01 : roundToDecimal 0 1 = 0 := by
      rw [roundToDecimal_nonneg_eq_floor 0 1 le_rfl]
      rw [show (0 : ℚ) * 10 ^ 1 + 1 / 2 = 1 / 2 by norm_num]
      rw [show ⌊(1 / 2 : ℚ)⌋ = 0 by rw [Int.floor_eq_iff] <;> norm_num]
      norm_num
    have h02 : roundToDecimal 0 2 = 0 := by
      rw [roundToDecimal_nonneg_eq_floor 0 2 le_rfl]
      rw [show (0 : ℚ) * 10 ^ 2 + 1 / 2 = 1 / 2 by norm_num]
      rw [show ⌊(1 / 2 : ℚ)⌋ = 0 by rw [Int.floor_eq_iff] <;> norm_num]
      norm_num
    simp only [List.map_cons, List.map_nil, List.sum_cons, List.sum_nil,
      List.length_cons, List.length_nil, add_zero]
    rw [CumulativeSummary.mk.injEq]
    refine ⟨rfl, rfl, rfl, ?_, ?_, ?_, ?_, ?_⟩ <;> simp [h10, h01, h02]

/-- C7: roundToDecimal has round-half-up semantics: for every non-negative x
and decimal count d it equals floor(x·10^d + 0.5)/10^d; and calculateSummary
applies 1 decimal to the fuel-consumed/fuel-topped totals and 2 decimals to
the generator/zesa/offline hour totals. -/
theorem roundToDecimal_half_up (x : ℚ) (d : ℕ) (hx : 0 ≤ x) :
    roundToDecimal x d = ((⌊x * 10 ^ d + 1 / 2⌋ : ℤ) : ℚ) / 10 ^ d ∧
    ∀ (results : List CumulativeSiteResult) (totalSites : ℤ),
      (calculateSummary results totalSites).TotalFuelConsumed =
        roundToDecimal ((nonErrorResults results).map (·.FuelConsumed)).sum 1 ∧
      (calculateSummary results totalSites).TotalFuelTopped =
        roundToDecimal ((nonErrorResults results).map (·.FuelTopped)).sum 1 ∧
      (calculateSummary results totalSites).TotalGeneratorHours =
        roundToDecimal ((nonErrorResults results).map (·.GeneratorHours)).sum 2 ∧
      (calculateSummary results totalSites).TotalZesaHours =
        roundToDecimal ((nonErrorResults results).map (·.ZesaHours)).sum 2 ∧
      (calculateSummary results totalSites).TotalOfflineHours =
        roundToDecimal ((nonErrorResults results).map (·.OfflineHours)).sum 2 := by
  constructor
  · exact roundToDecimal_nonneg_eq_floor x d hx
  · intro results totalSites
    rw [calculateSummary_spec]
    exact ⟨rfl, rfl, rfl, rfl, rfl⟩

/-- Witness for C7: 1.25 rounds up to 1.3 at one decimal place (round half up),
through the theorem's floor characterization. -/
theorem roundToDecimal_half_up_witness : roundToDecimal (5 / 4 : ℚ) 1 = 13 / 10 := by
  have h := (roundToDecimal_half_up (5 / 4 : ℚ) 1 (by norm_num)).1
  rw [h, show (5 / 4 : ℚ) * 10 ^ 1 + 1 / 2 = 13 by norm_num,
    show ⌊(13 : ℚ)⌋ = 13 by rw [Int.floor_eq_iff] <;> norm_num]
  norm_num

/-- calculateDaysDifference: 1 for identical timestamps, otherwise the elapsed
hours divided by 24, truncated with int(), plus 1. Timestamps are in hours. -/
def calculateDaysDifference (startDate endDate : ℚ) : ℤ :=
  if startDate = endDate then 1
  else truncQ ((endDate - startDate) / 24) + 1

lemma truncQ_intCast (k : ℤ) : truncQ (k : ℚ) = k := by
  unfold truncQ
  split <;> simp

/-- C8: for day-aligned dates (the elapsed time is a whole number k of days),
calculateDaysDifference returns 1 when the dates coincide and k + 1 otherwise,
the inclusive calendar-day count of the window. -/
theorem calculateDaysDifference_inclusive (s e : ℚ) (k : ℤ) (h : e - s = 24 * k) :
    calculateDaysDifference s e = if s = e then 1 else k + 1 := by
  unfold calculateDaysDifference
  by_cases hse : s = e
  · rw [if_pos hse, if_pos hse]
  · rw [if_neg hse, if_neg hse, h,
      show (24 : ℚ) * k / 24 = (k : ℚ) by ring, truncQ_intCast]

/-- Witness for C8: with dates as hours since 2024-01-01 midnight UTC,
start = end = 2024-01-01 gives 1 day, and end = 2024-01-03 (48 hours later)
gives 3 days. -/
theorem calculateDaysDifference_inclusive_witness :
    calculateDaysDifference 0 48 = 3 ∧ calculateDaysDifference 0 0 = 1 := by
  constructor
  · have h := calculateDaysDifference_inclusive 0 48 2 (by norm_num)
    rw [h, if_neg (by norm_num)]
    norm_num
  · have h := calculateDaysDifference_inclusive 0 0 0 (by norm_num)
    rw [h, if_pos rfl]

/-- A site as seen by the aggregation core: identifier, display name, device
identifier. -/
structure Site where
  ID : ℤ
  Name : String
  DeviceID : String
  deriving DecidableEq

/-- A persisted cumulative_readings row as consumed by the range aggregate
query: the owning site, the calendar day (as a day number), and the five
numeric metric columns. -/
structure CumulativeRow where
  siteId : ℤ
  date : ℤ
  totalFuelConsumed : ℚ
  totalFuelTopped : ℚ
  totalGeneratorHours : ℚ
  totalZesaHours : ℚ
  totalOfflineHours : ℚ
  deriving DecidableEq

/-- A per-site result of the range aggregation. Note the type has no status or
error field: a range result either exists in full or is absent. -/
structure CumulativeSiteRangeResult where
  SiteID : ℤ
  SiteName : String
  DeviceID : String
  TotalFuelConsumed : ℚ
  TotalFuelTopped : ℚ
  TotalGeneratorHours : ℚ
  TotalZesaHours : ℚ
  TotalOfflineHours : ℚ
  ReadingDays : ℤ
  FirstDate : ℤ
  LastDate : ℤ
  deriving DecidableEq

/-- The storage backend as seen by the range path: the cumulative_readings
table, plus the set of site ids whose aggregate query fails (QueryRow/Scan
returning an error). -/
structure RangeStore where
  rows : List CumulativeRow
  failingSites : List ℤ
  deriving DecidableEq

/-- The rows matched by the range aggregate query's WHERE clause:
site_id = $1 AND date >= $2 AND date <= $3. -/
def rangeRows (rows : List CumulativeRow) (siteId startDate endDate : ℤ) :
    List CumulativeRow :=
  rows.filter fun r => decide (r.siteId = siteId ∧ startDate ≤ r.date ∧ r.date ≤ endDate)

/-- MIN(date) over the matched rows (meaningful only when rows is nonempty). -/
def minDate (rows : List CumulativeRow) : ℤ :=
  match rows with
  | [] => 0
  | r :: rs => rs.foldl (fun m x => min m x.date) r.date

/-- MAX(date) over the matched rows (meaningful only when rows is nonempty). -/
def maxDate (rows : List CumulativeRow) : ℤ :=
  match rows with
  | [] => 0
  | r :: rs => rs.foldl (fun m x => max m x.date) r.date

/-- The CumulativeSiteRangeResult built by getSiteRangeData from the aggregate
row: per-site sums rounded (1 decimal for volumes, 2 for hours), the day
count, and the MIN/MAX dates actually present. -/
def buildRangeResult (site : Site) (rows : List CumulativeRow) :
    CumulativeSiteRangeResult :=
  { SiteID := site.ID
    SiteName := site.Name
    DeviceID := site.DeviceID
    TotalFuelConsumed := roundToDecimal (rows.map (·.totalFuelConsumed)).sum 1
    TotalFuelTopped := roundToDecimal (rows.map (·.totalFuelTopped)).sum 1
    TotalGeneratorHours := roundToDecimal (rows.map (·.totalGeneratorHours)).sum 2
    TotalZesaHours := roundToDecimal (rows.map (·.totalZesaHours)).sum 2
    TotalOfflineHours := roundToDecimal (rows.map (·.totalOfflineHours)).sum 2
    ReadingDays := rows.length
    FirstDate := minDate rows
    LastDate := maxDate rows }

/-- getSiteRangeData: run the aggregate query for one site over the window; on
a query error return none (the caller logs and drops the site), on zero
matching days return none, otherwise return the aggregated result. -/
def getSiteRangeData (store : RangeStore) (site : Site) (startDate endDate : ℤ) :
    Option CumulativeSiteRangeResult :=
  if site.ID ∈ store.failingSites then none
  else
    if (rangeRows store.rows site.ID startDate endDate).length = 0 then none
    else some (buildRangeResult site (rangeRows store.rows site.ID startDate endDate))

/-- processSiteRangeBatch: run getSiteRangeData for each site in order,
appending only the non-nil results. -/
def processSiteRangeBatch (store : RangeStore) (sites : List Site)
    (startDate endDate : ℤ) : List CumulativeSiteRangeResult :=
  sites.filterMap fun site => getSiteRangeData store site startDate endDate

lemma processSiteRangeBatch_eq (store : RangeStore) (sites : List Site)
    (startDate endDate : ℤ) (h : store.failingSites = []) :
    processSiteRangeBatch store sites startDate endDate =
      (sites.filter fun site =>
          decide (rangeRows store.rows site.ID startDate endDate ≠ [])).map
        fun site => buildRangeResult site (rangeRows store.rows site.ID startDate endDate) := by
  induction sites with
  | nil => rfl
  | cons site rest ih =>
      rw [processSiteRangeBatch] at ih ⊢
      by_cases hrows : rangeRows store.rows site.ID startDate endDate = []
      · have hhead : getSiteRangeData store site startDate endDate = none := by
          unfold getSiteRangeData
          rw [h]
          simp [hrows]
        simp only [List.filterMap_cons, List.filter_cons, hhead]
        rw [if_neg (by simpa using hrows)]
        exact ih
      · have hhead : getSiteRangeData store site startDate endDate =
            some (buildRangeResult site (rangeRows store.rows site.ID startDate endDate)) := by
          unfold getSiteRangeData
          rw [h]
          have hlen : ¬(rangeRows store.rows site.ID startDate endDate).length = 0 :=
            fun hl => hrows (List.length_eq_zero.mp hl)
          simp [hlen]
        simp only [List.filterMap_cons, List.filter_cons, hhead]
        rw [if_pos (by simpa using hrows), List.map_cons]
        rw [ih]

/-- C9: in the range variant, when the per-site queries succeed, a site is
omitted from the returned list exactly when its aggregate query matches zero
days in the window, and every site with at least one matching day contributes
its aggregated row, in order: the batch equals the map over the sites that
have matching rows. -/
theorem range_drops_empty_sites (store : RangeStore) (sites : List Site)
    (startDate endDate : ℤ) (h : store.failingSites = []) :
    processSiteRangeBatch store sites startDate endDate =
      (sites.filter fun site =>
          decide (rangeRows store.rows site.ID startDate endDate ≠ [])).map
        fun site => buildRangeResult site (rangeRows store.rows site.ID startDate endDate) :=
  processSiteRangeBatch_eq store sites startDate endDate h

/-- Witness for C9: a store holding one row for site 1 and none for site 2 in
the window; site 1 appears in the batch result and site 2 is dropped. -/
theorem range_drops_empty_sites_witness :
    (processSiteRangeBatch ⟨[⟨1, 5, 3, 0, 0, 0, 0⟩], []⟩
        [⟨1, "A", "d1"⟩, ⟨2, "B", "d2"⟩] 0 10).map (·.SiteID) = [1] := by
  rw [range_drops_empty_sites _ _ _ _ rfl]
  rfl

/-- Go's %v formatting of an error variable: the message, or the literal text
printed for a nil error. -/
def errText {α : Type} : Except String α → String
  | .ok _ => "<nil>"
  | .error msg => msg

/-- Whether a fallible computation failed. -/
def isErr {α : Type} : Except String α → Bool
  | .ok _ => false
  | .error _ => true

/-- The storage backend as seen by the single-day per-site path: the outcome of
CalculateFuelChanges per device, of CalculatePowerRuntimes per device, and of
the upsert per site. -/
structure SingleDayStore where
  fuelResult : String → Except String FuelMetrics
  powerResult : String → Except String PowerMetrics
  upsertResult : ℤ → Except String Unit

/-- processSingleSite: compute the two metrics (concurrently in the source;
both are joined before use, so the join is modelled by reading both outcomes);
if either failed, return an ERROR result with the combined message and skip
the upsert; otherwise upsert and return the metrics with status
CREATED/UPDATED, or an ERROR result if the upsert failed. The Bool records
whether the upsert was invoked. -/
def processSingleSite (store : SingleDayStore) (site : Site)
    (hasExistingReading : Bool) : CumulativeSiteResult × Bool :=
  match store.fuelResult site.DeviceID, store.powerResult site.DeviceID with
  | .ok fuelMetrics, .ok powerMetrics =>
      (match store.upsertResult site.ID with
       | .error msg =>
           ({ SiteID := site.ID, SiteName := site.Name, DeviceID := site.DeviceID
              FuelConsumed := 0, FuelTopped := 0, FuelConsumedPercent := 0
              FuelToppedPercent := 0, GeneratorHours := 0, ZesaHours := 0
              OfflineHours := 0, Status := "ERROR", Error := msg }, true)
       | .ok _ =>
           ({ SiteID := site.ID, SiteName := site.Name, DeviceID := site.DeviceID
              FuelConsumed := fuelMetrics.TotalFuelConsumed
              FuelTopped := fuelMetrics.TotalFuelTopped
              FuelConsumedPercent := fuelMetrics.FuelConsumedPercent
              FuelToppedPercent := fuelMetrics.FuelToppedPercent
              GeneratorHours := powerMetrics.TotalGeneratorRuntime
              ZesaHours := powerMetrics.TotalZesaRuntime
              OfflineHours := powerMetrics.TotalOfflineTime
              Status := if hasExistingReading then "UPDATED" else "CREATED"
              Error := "" }, true))
  | fuelRes, powerRes =>
      ({ SiteID := site.ID, SiteName := site.Name, DeviceID := site.DeviceID
         FuelConsumed := 0, FuelTopped := 0, FuelConsumedPercent := 0
         FuelToppedPercent := 0, GeneratorHours := 0, ZesaHours := 0
         OfflineHours := 0, Status := "ERROR"
         Error := "Calculation error: fuel=" ++ errText fuelRes ++
           ", power=" ++ errText powerRes }, false)

/-- processBatch: run processSingleSite for each site of a batch in order,
with the pre-fetched existing-reading set queried per site id. -/
def processBatch (store : SingleDayStore) (sites : List Site)
    (hasExisting : ℤ → Bool) : List (CumulativeSiteResult × Bool) :=
  sites.map fun site => processSingleSite store site (hasExisting site.ID)

/-- C2 as stated fails on the range variant: here site 1 has a persisted row
in the window but its aggregate query fails, and the returned site list is
empty — the failing site gets no entry at all, in particular no entry with
status ERROR (the range result type has no status field). -/
theorem range_failure_yields_no_entry :
    processSiteRangeBatch ⟨[⟨1, 5, 3, 0, 0, 0, 0⟩], [1]⟩ [⟨1, "A", "d1"⟩] 0 10 = [] := by
  have hhead : getSiteRangeData ⟨[⟨1, 5, 3, 0, 0, 0, 0⟩], [1]⟩ ⟨1, "A", "d1"⟩ 0 10 = none := by
    unfold getSiteRangeData
    rw [if_pos (by simp)]
  unfold processSiteRangeBatch
  simp only [List.filterMap_cons, hhead, List.filterMap_nil]

/-- C2 (amended): a per-site computation failure is caught locally in both
variants. In the single-day variant a metric failure produces an ERROR entry
carrying the combined error message, without invoking the upsert, and batches
decompose per site so siblings are unaffected. In the range variant the
failing site is omitted from the result list entirely (getSiteRangeData
returns none) and the surrounding sites' results are concatenated unchanged. -/
theorem per_site_failure_isolated (store : SingleDayStore) (site : Site)
    (hasExistingReading : Bool)
    (h : isErr (store.fuelResult site.DeviceID) = true ∨
         isErr (store.powerResult site.DeviceID) = true) :
    ((processSingleSite store site hasExistingReading).1.Status = "ERROR" ∧
      (processSingleSite store site hasExistingReading).1.Error =
        "Calculation error: fuel=" ++ errText (store.fuelResult site.DeviceID) ++
          ", power=" ++ errText (store.powerResult site.DeviceID) ∧
      (processSingleSite store site hasExistingReading).2 = false) ∧
    (∀ (sitesA sitesB : List Site) (hasExisting : ℤ → Bool),
      processBatch store (sitesA ++ sitesB) hasExisting =
        processBatch store sitesA hasExisting ++ processBatch store sitesB hasExisting) ∧
    (∀ (rstore : RangeStore) (rsite : Site) (startDate endDate : ℤ),
      rsite.ID ∈ rstore.failingSites →
        getSiteRangeData rstore rsite startDate endDate = none) ∧
    (∀ (rstore : RangeStore) (rsite : Site) (sitesA sitesB : List Site)
        (startDate endDate : ℤ),
      rsite.ID ∈ rstore.failingSites →
        processSiteRangeBatch rstore (sitesA ++ rsite :: sitesB) startDate endDate =
          processSiteRangeBatch rstore sitesA startDate endDate ++
            processSiteRangeBatch rstore sitesB startDate endDate) := by
  refine ⟨?_, ?_, ?_, ?_⟩
  · rcases hf : store.fuelResult site.DeviceID with m | fm <;>
      rcases hp : store.powerResult site.DeviceID with m2 | pm <;>
      simp only [isErr, hf, hp, Bool.false_eq_true, or_self, or_false, false_or] at h <;>
      simp [processSingleSite, hf, hp]
  · intro sitesA sitesB hasExisting
    unfold processBatch
    rw [List.map_append]
  · intro rstore rsite startDate endDate hmem
    unfold getSiteRangeData
    rw [if_pos hmem]
  · intro rstore rsite sitesA sitesB startDate endDate hmem
    have hhead : getSiteRangeData rstore rsite startDate endDate = none := by
      unfold getSiteRangeData
      rw [if_pos hmem]
    unfold processSiteRangeBatch
    rw [List.filterMap_append]
    simp only [List.filterMap_cons, hhead]

/-- Witness for the amended C2: a store whose fuel query fails for every
device; the site's entry is an ERROR entry and no upsert happens. -/
theorem per_site_failure_isolated_witness :
    (processSingleSite
        ⟨fun _ => .error "db down", fun _ => .ok ⟨0, 0, 0⟩, fun _ => .ok ()⟩
        ⟨1, "A", "d1"⟩ false).1.Status = "ERROR" ∧
    (processSingleSite
        ⟨fun _ => .error "db down", fun _ => .ok ⟨0, 0, 0⟩, fun _ => .ok ()⟩
        ⟨1, "A", "d1"⟩ false).2 = false := by
  have h := per_site_failure_isolated
    ⟨fun _ => .error "db down", fun _ => .ok ⟨0, 0, 0⟩, fun _ => .ok ()⟩
    ⟨1, "A", "d1"⟩ false (Or.inl rfl)
  exact ⟨h.1.1, h.1.2.2⟩

/-- The range aggregation summary; the DateRange start/end strings become the
RangeStart/RangeEnd day numbers. -/
structure CumulativeRangeSummary where
  RangeStart : ℤ
  RangeEnd : ℤ
  IsRange : Bool
  TotalSites : ℤ
  TotalFuelConsumed : ℚ
  TotalFuelTopped : ℚ
  TotalGeneratorHours : ℚ
  TotalZesaHours : ℚ
  TotalOfflineHours : ℚ
  AverageFuelPerSite : ℚ
  DaysIncluded : ℤ
  deriving DecidableEq

/-- calculateRangeSummary: sum the per-site (already rounded) aggregates,
derive the average fuel per site (0 when no sites qualified), round every
total again, and attach the inclusive day count of the request window. -/
def calculateRangeSummary (results : List CumulativeSiteRangeResult)
    (startDate endDate : ℤ) (startTime endTime : ℚ) : CumulativeRangeSummary :=
  let totalFuelConsumed := (results.map (·.TotalFuelConsumed)).sum
  let totalFuelTopped := (results.map (·.TotalFuelTopped)).sum
  let totalGeneratorHours := (results.map (·.TotalGeneratorHours)).sum
  let totalZesaHours := (results.map (·.TotalZesaHours)).sum
  let totalOfflineHours := (results.map (·.TotalOfflineHours)).sum
  let averageFuelPerSite :=
    if 0 < results.length then totalFuelConsumed / (results.length : ℚ) else 0
  { RangeStart := startDate
    RangeEnd := endDate
    IsRange := decide (startDate ≠ endDate)
    TotalSites := (results.length : ℤ)
    TotalFuelConsumed := roundToDecimal totalFuelConsumed 1
    TotalFuelTopped := roundToDecimal totalFuelTopped 1
    TotalGeneratorHours := roundToDecimal totalGeneratorHours 2
    TotalZesaHours := roundToDecimal totalZesaHours 2
    TotalOfflineHours := roundToDecimal totalOfflineHours 2
    AverageFuelPerSite := roundToDecimal averageFuelPerSite 1
    DaysIncluded := calculateDaysDifference startTime endTime }

/-- C10: the two summary paths round differently. The range pipeline's total
fuel consumed equals round(Σ round(per-site raw sum)) — each qualifying
site's aggregate is rounded in getSiteRangeData and the rounded values are
summed and rounded again — whereas the single-day summary rounds only the sum
of the raw per-site values; and the double rounding can differ from rounding
the raw sum, e.g. at two per-site values of 0.26. -/
theorem summary_double_rounding (store : RangeStore) (sites : List Site)
    (startDate endDate : ℤ) (startTime endTime : ℚ)
    (h : store.failingSites = []) :
    (calculateRangeSummary (processSiteRangeBatch store sites startDate endDate)
        startDate endDate startTime endTime).TotalFuelConsumed =
      roundToDecimal
        (((sites.filter fun site =>
              decide (rangeRows store.rows site.ID startDate endDate ≠ [])).map
            fun site =>
              roundToDecimal
                ((rangeRows store.rows site.ID startDate endDate).map
                  (·.totalFuelConsumed)).sum 1).sum) 1 ∧
    (∀ (results : List CumulativeSiteResult) (totalSites : ℤ),
      (calculateSummary results totalSites).TotalFuelConsumed =
        roundToDecimal ((nonErrorResults results).map (·.FuelConsumed)).sum 1) ∧
    roundToDecimal (roundToDecimal (13 / 50) 1 + roundToDecimal (13 / 50) 1) 1 ≠
      roundToDecimal ((13 / 50 : ℚ) + 13 / 50) 1 := by
  refine ⟨?_, ?_, ?_⟩
  · rw [processSiteRangeBatch_eq store sites startDate endDate h]
    unfold calculateRangeSummary
    rw [List.map_map]
    rfl
  · intro results totalSites
    rw [calculateSummary_spec]
  · have e1 : roundToDecimal (13 / 50 : ℚ) 1 = 3 / 10 := by
      rw [roundToDecimal_nonneg_eq_floor _ _ (by norm_num),
        show (13 / 50 : ℚ) * 10 ^ 1 + 1 / 2 = 31 / 10 by norm_num,
        show ⌊(31 / 10 : ℚ)⌋ = 3 by rw [Int.floor_eq_iff] <;> norm_num]
      norm_num
    have e2 : roundToDecimal (3 / 5 : ℚ) 1 = 3 / 5 := by
      rw [roundToDecimal_nonneg_eq_floor _ _ (by norm_num),
        show (3 / 5 : ℚ) * 10 ^ 1 + 1 / 2 = 13 / 2 by norm_num,
        show ⌊(13 / 2 : ℚ)⌋ = 6 by rw [Int.floor_eq_iff] <;> norm_num]
      norm_num
    have e3 : roundToDecimal ((13 / 50 : ℚ) + 13 / 50) 1 = 1 / 2 := by
      rw [roundToDecimal_nonneg_eq_floor _ _ (by norm_num),
        show ((13 / 50 : ℚ) + 13 / 50) * 10 ^ 1 + 1 / 2 = 57 / 10 by norm_num,
        show ⌊(57 / 10 : ℚ)⌋ = 5 by rw [Int.floor_eq_iff] <;> norm_num]
      norm_num
    rw [e1, show (3 / 10 : ℚ) + 3 / 10 = 3 / 5 by norm_num, e2, e3]
    norm_num

/-- Witness for C10: one site with a single persisted row of 3 liters consumed
in the window; the pipeline total is 3. -/
theorem summary_double_rounding_witness :
    (calculateRangeSummary
        (processSiteRangeBatch ⟨[⟨1, 5, 3, 0, 0, 0, 0⟩], []⟩ [⟨1, "A", "d1"⟩] 0 10)
        0 10 0 240).TotalFuelConsumed = 3 := by
  have h := summary_double_rounding ⟨[⟨1, 5, 3, 0, 0, 0, 0⟩], []⟩ [⟨1, "A", "d1"⟩]
    0 10 0 240 rfl
  rw [h.1]
  have hrows : rangeRows [⟨1, 5, 3, 0, 0, 0, 0⟩] 1 0 10 = [⟨1, 5, 3, 0, 0, 0, 0⟩] := by
    simp [rangeRows]
  have h3 : roundToDecimal 3 1 = 3 := by
    rw [roundToDecimal_nonneg_eq_floor _ _ (by norm_num),
      show (3 : ℚ) * 10 ^ 1 + 1 / 2 = 61 / 2 by norm_num,
      show ⌊(61 / 2 : ℚ)⌋ = 30 by rw [Int.floor_eq_iff] <;> norm_num]
    norm_num
  simp only [List.filter_cons, List.filter_nil, hrows]
  norm_num [hrows, h3]

end FuelMonitor
